import Mathlib

/-!
Shallow embedding of the ecosystem simulation engine (EcosystemSimulator).

Numbers are modelled by ℚ (exact rationals standing for JS floats).  The two
transcendental library calls the engine makes are modelled by oracle
parameters that every theorem quantifies over:
  osc : ℚ → ℚ   models  t ↦ Math.sin(2·π·t/12)   (the seasonal factor)
  sq  : ℚ → ℚ   models  Math.sqrt                (used by checkEquilibrium)
The static predictEquilibrium analyzer divides by quantities that can be
zero, and JS division by zero produces ±Infinity/NaN rather than an error;
for that function alone the value domain is the JSNum type below, which
models the relevant part of IEEE/JS number semantics exactly.

The ghost field SimState.steps (and TimeStepRecord.afterSteps) counts how
many integration steps have been applied; it is written by doStep/mkRecord
and never read by the dynamics.
-/

/-- Parameter block for the prey species. -/
structure PreyParams where
  initialPopulation : ℚ
  birthRate : ℚ
  carryingCapacity : ℚ
deriving DecidableEq

/-- Parameter block for the predator species. -/
structure PredatorParams where
  initialPopulation : ℚ
  huntingEfficiency : ℚ
  deathRate : ℚ
deriving DecidableEq

/-- Parameter block for the environment. -/
structure EnvParams where
  resourceAvailability : ℚ
  seasonalVariation : Bool
  seasonalAmplitude : ℚ
deriving DecidableEq

/-- A full simulation parameter set. -/
structure Params where
  prey : PreyParams
  predator : PredatorParams
  environment : EnvParams
deriving DecidableEq

/-- Integration time step (this.dt = 0.01). -/
def dt : ℚ := 1 / 100

/-- Initial simulation horizon (this.maxTime = 100). -/
def maxTimeInit : ℚ := 100

/-- Recording cadence (recordInterval = 0.1 in simulate). -/
def recordInterval : ℚ := 1 / 10

/-- Size of the trailing window used by the equilibrium detector. -/
def equilibriumBufferSize : ℕ := 50

/-- Coefficient-of-variation tolerance of the equilibrium detector. -/
def equilibriumTolerance : ℚ := 1 / 100

/-- One entry of the recorded trajectory (this.history).  afterSteps is a
ghost observation: the number of integration steps applied before the record
was emitted. -/
structure TimeStepRecord where
  time : ℚ
  preyPopulation : ℚ
  predatorPopulation : ℚ
  resourceLevel : ℚ
  afterSteps : ℕ
deriving DecidableEq

/-- The equilibrium point stored on first stability detection. -/
structure EquilibriumPoint where
  prey : ℚ
  predator : ℚ
  timeToReach : ℚ
deriving DecidableEq

/-- The mutable state of an EcosystemSimulator instance. -/
structure SimState where
  params : Params
  history : List TimeStepRecord
  currentTime : ℚ
  maxTime : ℚ
  preyPop : ℚ
  predatorPop : ℚ
  equilibriumReached : Bool
  equilibriumPoint : Option EquilibriumPoint
  extinctionOccurred : Bool
  steps : ℕ
deriving DecidableEq

/-- The constructor of EcosystemSimulator. -/
def init (p : Params) : SimState where
  params := p
  history := []
  currentTime := 0
  maxTime := maxTimeInit
  preyPop := p.prey.initialPopulation
  predatorPop := p.predator.initialPopulation
  equilibriumReached := false
  equilibriumPoint := none
  extinctionOccurred := false
  steps := 0

/-- calculateResourceLevel.  osc models t ↦ Math.sin(2·π·t/12). -/
def calculateResourceLevel (osc : ℚ → ℚ) (p : Params) (time : ℚ) : ℚ :=
  if !p.environment.seasonalVariation then
    p.environment.resourceAvailability
  else
    max 0 (min 1 (p.environment.resourceAvailability +
      p.environment.seasonalAmplitude * osc time))

/-- calculateDerivatives: the modified Lotka-Volterra right-hand side. -/
def calculateDerivatives (p : Params) (prey predator resourceLevel : ℚ) : ℚ × ℚ :=
  let effectiveBirthRate := p.prey.birthRate * resourceLevel
  let preyGrowth := effectiveBirthRate * prey
  let predation := p.predator.huntingEfficiency * prey * predator
  let preyCompetition := p.prey.birthRate * prey * prey / p.prey.carryingCapacity
  let predatorGrowth := p.predator.huntingEfficiency * (1/2) * prey * predator
  let predatorDeath := p.predator.deathRate * predator
  let starvationFactor : ℚ := if prey < 10 then 2 else 1
  (preyGrowth - predation - preyCompetition,
   predatorGrowth - predatorDeath * starvationFactor)

/-- rungeKutta4Step: one RK4 advance, with the resource level sampled once
at the step start and the outputs floor-clamped at 0. -/
def rungeKutta4Step (osc : ℚ → ℚ) (p : Params) (prey predator time : ℚ) : ℚ × ℚ :=
  let resourceLevel := calculateResourceLevel osc p time
  let k1 := calculateDerivatives p prey predator resourceLevel
  let k2 := calculateDerivatives p (prey + (1/2) * dt * k1.1)
    (predator + (1/2) * dt * k1.2) resourceLevel
  let k3 := calculateDerivatives p (prey + (1/2) * dt * k2.1)
    (predator + (1/2) * dt * k2.2) resourceLevel
  let k4 := calculateDerivatives p (prey + dt * k3.1) (predator + dt * k3.2) resourceLevel
  (max 0 (prey + (dt/6) * (k1.1 + 2*k2.1 + 2*k3.1 + k4.1)),
   max 0 (predator + (dt/6) * (k1.2 + 2*k2.2 + 2*k3.2 + k4.2)))

/-- JS Math.round: round half toward positive infinity. -/
def jsRound (q : ℚ) : ℚ := ((⌊q + 1/2⌋ : ℤ) : ℚ)

/-- The record object pushed onto this.history. -/
def mkRecord (osc : ℚ → ℚ) (s : SimState) : TimeStepRecord where
  time := jsRound (s.currentTime * 100) / 100
  preyPopulation := jsRound (s.preyPop * 10) / 10
  predatorPopulation := jsRound (s.predatorPop * 10) / 10
  resourceLevel := calculateResourceLevel osc s.params s.currentTime
  afterSteps := s.steps

/-- this.history.push(record). -/
def pushRecord (osc : ℚ → ℚ) (s : SimState) : SimState :=
  {s with history := s.history ++ [mkRecord osc s]}

/-- The record-at-intervals phase at the top of the simulate loop; returns
the new state together with the new lastRecord value. -/
def recordPhase (osc : ℚ → ℚ) (s : SimState) (lastRecord : ℚ) : SimState × ℚ :=
  if recordInterval ≤ s.currentTime - lastRecord then
    (pushRecord osc s, s.currentTime)
  else
    (s, lastRecord)

/-- The integration-step phase of the simulate loop (also bumps the ghost
step counter). -/
def doStep (osc : ℚ → ℚ) (s : SimState) : SimState :=
  let pops := rungeKutta4Step osc s.params s.preyPop s.predatorPop s.currentTime
  {s with preyPop := pops.1, predatorPop := pops.2, steps := s.steps + 1}

/-- checkExtinction: latches extinctionOccurred when a population is below 1
and reports whether it tripped. -/
def checkExtinction (s : SimState) : SimState × Bool :=
  if s.preyPop < 1 ∨ s.predatorPop < 1 then
    ({s with extinctionOccurred := true}, true)
  else
    (s, false)

/-- history.slice(-equilibriumBufferSize): the trailing window of records. -/
def recentWindow (s : SimState) : List TimeStepRecord :=
  s.history.drop (s.history.length - equilibriumBufferSize)

/-- Mean prey population over the trailing window. -/
def windowMeanPrey (s : SimState) : ℚ :=
  ((recentWindow s).map (fun h => h.preyPopulation)).sum / ((recentWindow s).length : ℚ)

/-- Mean predator population over the trailing window. -/
def windowMeanPredator (s : SimState) : ℚ :=
  ((recentWindow s).map (fun h => h.predatorPopulation)).sum / ((recentWindow s).length : ℚ)

/-- Population variance of prey over the trailing window. -/
def windowVarPrey (s : SimState) : ℚ :=
  ((recentWindow s).map (fun h => (h.preyPopulation - windowMeanPrey s)^2)).sum /
    ((recentWindow s).length : ℚ)

/-- Population variance of predator over the trailing window. -/
def windowVarPredator (s : SimState) : ℚ :=
  ((recentWindow s).map (fun h => (h.predatorPopulation - windowMeanPredator s)^2)).sum /
    ((recentWindow s).length : ℚ)

/-- checkEquilibrium: tests stability of the trailing window and, on
success, latches equilibriumReached and stores the equilibrium point.
sq models Math.sqrt. -/
def checkEquilibrium (sq : ℚ → ℚ) (s : SimState) : SimState × Bool :=
  if s.history.length < equilibriumBufferSize then
    (s, false)
  else
    if sq (windowVarPrey s) / windowMeanPrey s < equilibriumTolerance ∧
       sq (windowVarPredator s) / windowMeanPredator s < equilibriumTolerance then
      ({s with equilibriumReached := true,
               equilibriumPoint := some ⟨windowMeanPrey s, windowMeanPredator s, s.currentTime⟩},
       true)
    else
      (s, false)

/-- The equilibrium phase of the simulate loop: guarded by
!this.equilibriumReached; on a fresh detection shrinks the horizon by
this.maxTime = this.currentTime + Math.min(10, this.maxTime - this.currentTime). -/
def equilibriumPhase (sq : ℚ → ℚ) (s : SimState) : SimState :=
  if s.equilibriumReached then s
  else
    if (checkEquilibrium sq s).2 then
      {(checkEquilibrium sq s).1 with
        maxTime := (checkEquilibrium sq s).1.currentTime +
          min 10 ((checkEquilibrium sq s).1.maxTime - (checkEquilibrium sq s).1.currentTime)}
    else (checkEquilibrium sq s).1

/-- this.currentTime += this.dt. -/
def tickTime (s : SimState) : SimState :=
  {s with currentTime := s.currentTime + dt}

/-- The simulate while-loop, with an explicit fuel bound on the number of
iterations.  Besides the final state it returns the ghost list of the start
times of the integration steps actually performed (the value of
this.currentTime at each call of rungeKutta4Step). -/
def simLoopT (osc sq : ℚ → ℚ) : ℕ → SimState → ℚ → SimState × List ℚ
  | 0, s, _ => (s, [])
  | fuel+1, s, lastRecord =>
    if s.currentTime < s.maxTime then
      let rp := recordPhase osc s lastRecord
      let ex := checkExtinction (doStep osc rp.1)
      if ex.2 then
        (ex.1, [s.currentTime])
      else
        let rest := simLoopT osc sq fuel (tickTime (equilibriumPhase sq ex.1)) rp.2
        (rest.1, s.currentTime :: rest.2)
    else
      (s, [])

/-- simulate: run the loop from the freshly constructed state and force-emit
one final record after loop exit. -/
def simulate (osc sq : ℚ → ℚ) (fuel : ℕ) (p : Params) : SimState :=
  pushRecord osc (simLoopT osc sq fuel (init p) 0).1

/-- JS number values that the static predictEquilibrium analyzer can
produce: a finite value, a signed infinity, or NaN. -/
inductive JSNum where
  | num (q : ℚ)
  | posInf
  | negInf
  | nan
deriving DecidableEq

/-- JS division of finite values: division by zero silently yields a signed
infinity (or NaN for 0/0), never an error. -/
def jsDiv (a b : ℚ) : JSNum :=
  if b = 0 then
    if a = 0 then JSNum.nan else if 0 < a then JSNum.posInf else JSNum.negInf
  else JSNum.num (a / b)

/-- JS Math.min on JSNum values (NaN propagates). -/
def jsMin : JSNum → JSNum → JSNum
  | JSNum.nan, _ => JSNum.nan
  | _, JSNum.nan => JSNum.nan
  | JSNum.negInf, _ => JSNum.negInf
  | _, JSNum.negInf => JSNum.negInf
  | JSNum.posInf, b => b
  | a, JSNum.posInf => a
  | JSNum.num a, JSNum.num b => JSNum.num (min a b)

/-- The JS comparison x > 0 on JSNum values (false on NaN). -/
def jsGtZero : JSNum → Bool
  | JSNum.num q => decide (0 < q)
  | JSNum.posInf => true
  | _ => false

/-- Result object of predictEquilibrium. -/
structure EqPrediction where
  prey : JSNum
  predator : JSNum
  isStable : Bool
deriving DecidableEq

/-- Static predictEquilibrium, with JS division semantics made explicit. -/
def predictEquilibrium (p : Params) : EqPrediction :=
  let preyEquilibrium :=
    jsDiv p.predator.deathRate (p.predator.huntingEfficiency * (1/2))
  let predatorEquilibrium :=
    jsDiv (p.prey.birthRate * p.environment.resourceAvailability)
      p.predator.huntingEfficiency
  let adjustedPreyEq :=
    jsMin preyEquilibrium (JSNum.num (p.prey.carryingCapacity * (8/10)))
  { prey := adjustedPreyEq
    predator := predatorEquilibrium
    isStable := jsGtZero adjustedPreyEq && jsGtZero predatorEquilibrium }

/-- One grid entry of the static phase-space sampler. -/
structure PhasePoint where
  x : ℚ
  y : ℚ
  dx : ℚ
  dy : ℚ
deriving DecidableEq

/-- Static calculatePhaseSpace: N×N grid of derivative evaluations with the
initial populations of the constructed throwaway simulator overridden per
grid point, using the base resource level. -/
def calculatePhaseSpace (p : Params) (points : ℕ) : List PhasePoint :=
  let preyRange := p.prey.carryingCapacity
  let predatorRange := p.predator.initialPopulation * 10
  (List.range points).flatMap (fun (i : ℕ) =>
    (List.range points).map (fun (j : ℕ) =>
      let prey := ((i : ℚ) / (points : ℚ)) * preyRange
      let predator := ((j : ℚ) / (points : ℚ)) * predatorRange
      let simParams : Params :=
        { p with prey := { p.prey with initialPopulation := prey }
                 predator := { p.predator with initialPopulation := predator } }
      let derivatives :=
        calculateDerivatives simParams prey predator p.environment.resourceAvailability
      { x := prey, y := predator, dx := derivatives.1, dy := derivatives.2 }))

/-! ### Concrete parameter sets used in counterexamples and witnesses -/

/-- A representative valid parameter set (spec Scenario A, seasonality off). -/
def scenarioA : Params where
  prey := { initialPopulation := 1000, birthRate := 1, carryingCapacity := 5000 }
  predator := { initialPopulation := 100, huntingEfficiency := 1/100, deathRate := 1/2 }
  environment := { resourceAvailability := 7/10, seasonalVariation := false, seasonalAmplitude := 0 }

/-- Scenario A with the predator hunting efficiency set to zero. -/
def zeroHuntingParams : Params where
  prey := { initialPopulation := 1000, birthRate := 1, carryingCapacity := 5000 }
  predator := { initialPopulation := 100, huntingEfficiency := 0, deathRate := 1/2 }
  environment := { resourceAvailability := 7/10, seasonalVariation := false, seasonalAmplitude := 0 }

/-- Scenario A with resourceAvailability raised to 2 (all fields still ≥ 0). -/
def richResourceParams : Params where
  prey := { initialPopulation := 1000, birthRate := 1, carryingCapacity := 5000 }
  predator := { initialPopulation := 100, huntingEfficiency := 1/100, deathRate := 1/2 }
  environment := { resourceAvailability := 2, seasonalVariation := false, seasonalAmplitude := 0 }

/-- C1: with huntingEfficiency = 0 the static predictor does not fail with a
DivisionByZero error: JS division by zero silently yields Infinity, and the
returned object contains predator = +Infinity (with isStable even true).
This evaluation at a concrete valid parameter set exhibits the divergence
between the code and the specified guard. -/
theorem C1_predictor_zero_hunting_returns_infinity :
    predictEquilibrium zeroHuntingParams =
      { prey := JSNum.num 4000, predator := JSNum.posInf, isStable := true } := by
  norm_num [predictEquilibrium, zeroHuntingParams, jsDiv, jsMin, jsGtZero]

/-- C2 counterexample: a parameter set whose numeric fields are all ≥ 0
(the claim's notion of validity) on which the Resource Function returns 2,
outside [0,1], because the non-seasonal branch returns the base unclamped. -/
theorem C2_resource_exceeds_one :
    0 ≤ richResourceParams.prey.initialPopulation ∧
    0 ≤ richResourceParams.prey.birthRate ∧
    0 ≤ richResourceParams.prey.carryingCapacity ∧
    0 ≤ richResourceParams.predator.initialPopulation ∧
    0 ≤ richResourceParams.predator.huntingEfficiency ∧
    0 ≤ richResourceParams.predator.deathRate ∧
    0 ≤ richResourceParams.environment.resourceAvailability ∧
    0 ≤ richResourceParams.environment.seasonalAmplitude ∧
    calculateResourceLevel (fun _ => 0) richResourceParams 0 = 2 ∧
    1 < calculateResourceLevel (fun _ => 0) richResourceParams 0 := by
  norm_num [richResourceParams, calculateResourceLevel]

/-- C2 (amended): if additionally resourceAvailability ≤ 1, then for every
seasonal oracle, every parameter set and every time, the Resource Function
returns a level in [0,1]; the seasonal branch is clamped and the
non-seasonal branch returns the base. -/
theorem C2_resource_bounds (osc : ℚ → ℚ) (p : Params) (t : ℚ)
    (h0 : 0 ≤ p.environment.resourceAvailability)
    (h1 : p.environment.resourceAvailability ≤ 1) :
    0 ≤ calculateResourceLevel osc p t ∧ calculateResourceLevel osc p t ≤ 1 := by
  unfold calculateResourceLevel
  split
  · exact ⟨h0, h1⟩
  · exact ⟨le_max_left 0 _, max_le (by norm_num) (min_le_left 1 _)⟩

/-- C2 witness: the bounds theorem applied to Scenario A at time 3. -/
theorem C2_resource_bounds_witness :
    0 ≤ calculateResourceLevel (fun _ => 0) scenarioA 3 ∧
      calculateResourceLevel (fun _ => 0) scenarioA 3 ≤ 1 :=
  C2_resource_bounds (fun _ => 0) scenarioA 3
    (by norm_num [scenarioA]) (by norm_num [scenarioA])

/-- C7: for nonnegative populations and positive carrying capacity the
Derivative Function returns exactly the specified pair of rates, with the
fixed policy constants 0.5, 10 and 2.0. -/
theorem C7_derivative_formula (p : Params) (P Q r : ℚ)
    (hP : 0 ≤ P) (hQ : 0 ≤ Q) (hK : 0 < p.prey.carryingCapacity) :
    calculateDerivatives p P Q r =
      (p.prey.birthRate * r * P - p.predator.huntingEfficiency * P * Q -
         p.prey.birthRate * P^2 / p.prey.carryingCapacity,
       1/2 * p.predator.huntingEfficiency * P * Q -
         p.predator.deathRate * Q * (if P < 10 then (2:ℚ) else 1)) := by
  unfold calculateDerivatives
  by_cases h : P < 10 <;>
    simp only [h, ite_true, ite_false, Prod.mk.injEq] <;>
    exact ⟨by ring, by ring⟩

/-- C7 witness: the formula theorem applied to Scenario A at P = 3, Q = 4,
r = 1/2 (the starving branch P < 10). -/
theorem C7_derivative_formula_witness :
    calculateDerivatives scenarioA 3 4 (1/2) =
      (scenarioA.prey.birthRate * (1/2) * 3 - scenarioA.predator.huntingEfficiency * 3 * 4 -
         scenarioA.prey.birthRate * 3^2 / scenarioA.prey.carryingCapacity,
       1/2 * scenarioA.predator.huntingEfficiency * 3 * 4 -
         scenarioA.predator.deathRate * 4 * (if (3:ℚ) < 10 then (2:ℚ) else 1)) :=
  C7_derivative_formula scenarioA 3 4 (1/2) (by norm_num) (by norm_num)
    (by norm_num [scenarioA])

/-- The Derivative Function does not read the initial-population fields, so
overriding them (as the phase-space sampler's throwaway simulator does)
leaves its value unchanged. -/
theorem calculateDerivatives_initPop_irrel (p : Params) (a b prey predator r : ℚ) :
    calculateDerivatives
      { p with prey := { p.prey with initialPopulation := a }
               predator := { p.predator with initialPopulation := b } }
      prey predator r = calculateDerivatives p prey predator r := by
  simp [calculateDerivatives]

/-- C8: the phase-space sampler returns exactly N² entries, and each
entry's (dx, dy) is exactly the Derivative Function at that entry's (x, y)
with the environment's base resource level. -/
theorem C8_phase_space_exact (p : Params) (N : ℕ) (hN : 1 ≤ N) :
    (calculatePhaseSpace p N).length = N^2 ∧
    ∀ e ∈ calculatePhaseSpace p N,
      (e.dx, e.dy) = calculateDerivatives p e.x e.y p.environment.resourceAvailability := by
  constructor
  · unfold calculatePhaseSpace
    rw [List.length_flatMap]
    simp [Function.comp_def, pow_two]
  · intro e he
    unfold calculatePhaseSpace at he
    simp only [List.mem_flatMap, List.mem_map, List.mem_range] at he
    obtain ⟨i, hi, j, hj, rfl⟩ := he
    simp [calculateDerivatives_initPop_irrel]

/-- C8 witness: the exactness theorem at Scenario A with resolution 2. -/
theorem C8_phase_space_exact_witness :
    (calculatePhaseSpace scenarioA 2).length = 2^2 ∧
    ∀ e ∈ calculatePhaseSpace scenarioA 2,
      (e.dx, e.dy) =
        calculateDerivatives scenarioA e.x e.y scenarioA.environment.resourceAvailability :=
  C8_phase_space_exact scenarioA 2 (by norm_num)

/-- C9 counterexample: at Scenario A with resolution 2 the sampled prey
coordinates are 0, 0, 2500, 2500 and the sampled predator coordinates are
0, 500, 0, 500, so the upper bounds carryingCapacity = 5000 and
10·predatorInitialPopulation = 1000 are never sampled: the grid does not
cover the rectangle up to and including its upper bounds. -/
theorem C9_upper_bounds_not_sampled :
    scenarioA.prey.carryingCapacity = 5000 ∧
    scenarioA.predator.initialPopulation * 10 = 1000 ∧
    (calculatePhaseSpace scenarioA 2).map (fun e => e.x) = [0, 0, 2500, 2500] ∧
    (calculatePhaseSpace scenarioA 2).map (fun e => e.y) = [0, 500, 0, 500] ∧
    (5000:ℚ) ∉ (calculatePhaseSpace scenarioA 2).map (fun e => e.x) ∧
    (1000:ℚ) ∉ (calculatePhaseSpace scenarioA 2).map (fun e => e.y) := by
  norm_num [calculatePhaseSpace, scenarioA, List.range_succ]

/-- C9 (amended): the N² grid points lie in
[0, ((N−1)/N)·carryingCapacity] × [0, ((N−1)/N)·10·predatorInitialPopulation]:
the grid starts at the lower bound (0,0), which is sampled, but stops one
grid step short of the upper bounds carryingCapacity and
10·predatorInitialPopulation, which are never sampled. -/
theorem C9_grid_bounds (p : Params) (N : ℕ) (hN : 1 ≤ N)
    (hK : 0 ≤ p.prey.carryingCapacity) (hP : 0 ≤ p.predator.initialPopulation) :
    (∀ e ∈ calculatePhaseSpace p N,
        0 ≤ e.x ∧ e.x ≤ (((N:ℚ) - 1)/(N:ℚ)) * p.prey.carryingCapacity ∧
        0 ≤ e.y ∧ e.y ≤ (((N:ℚ) - 1)/(N:ℚ)) * (p.predator.initialPopulation * 10)) ∧
    (∃ e ∈ calculatePhaseSpace p N, e.x = 0 ∧ e.y = 0) := by
  have hNq : (0:ℚ) < (N:ℚ) := by exact_mod_cast Nat.lt_of_lt_of_le Nat.zero_lt_one hN
  constructor
  · intro e he
    unfold calculatePhaseSpace at he
    simp only [List.mem_flatMap, List.mem_map, List.mem_range] at he
    obtain ⟨i, hi, j, hj, rfl⟩ := he
    have hiq : (i:ℚ) ≤ (N:ℚ) - 1 := by
      have h2 : ((i:ℚ) + 1) ≤ (N:ℚ) := by exact_mod_cast Nat.succ_le_of_lt hi
      linarith
    have hjq : (j:ℚ) ≤ (N:ℚ) - 1 := by
      have h2 : ((j:ℚ) + 1) ≤ (N:ℚ) := by exact_mod_cast Nat.succ_le_of_lt hj
      linarith
    have hP10 : 0 ≤ p.predator.initialPopulation * 10 := by linarith
    refine ⟨?_, ?_, ?_, ?_⟩
    · exact mul_nonneg (div_nonneg (Nat.cast_nonneg i) (le_of_lt hNq)) hK
    · exact mul_le_mul_of_nonneg_right (div_le_div_of_nonneg_right hiq hNq.le) hK
    · exact mul_nonneg (div_nonneg (Nat.cast_nonneg j) (le_of_lt hNq)) hP10
    · exact mul_le_mul_of_nonneg_right (div_le_div_of_nonneg_right hjq hNq.le) hP10
  · have h0 : 0 < N := Nat.lt_of_lt_of_le Nat.zero_lt_one hN
    unfold calculatePhaseSpace
    simp only [List.mem_flatMap, List.mem_map, List.mem_range]
    refine ⟨_, ⟨0, h0, 0, h0, rfl⟩, ?_, ?_⟩ <;> norm_num

/-- C9 witness: the amended bounds theorem at Scenario A with resolution 2. -/
theorem C9_grid_bounds_witness :
    (∀ e ∈ calculatePhaseSpace scenarioA 2,
        0 ≤ e.x ∧ e.x ≤ (((2:ℚ) - 1)/(2:ℚ)) * scenarioA.prey.carryingCapacity ∧
        0 ≤ e.y ∧ e.y ≤ (((2:ℚ) - 1)/(2:ℚ)) * (scenarioA.predator.initialPopulation * 10)) ∧
    (∃ e ∈ calculatePhaseSpace scenarioA 2, e.x = 0 ∧ e.y = 0) :=
  C9_grid_bounds scenarioA 2 (by norm_num) (by norm_num [scenarioA])
    (by norm_num [scenarioA])

/-! ### Field bookkeeping for the loop phases -/

/-- pushRecord only appends to the history. -/
@[simp] theorem pushRecord_currentTime (osc : ℚ → ℚ) (s : SimState) :
    (pushRecord osc s).currentTime = s.currentTime := rfl

@[simp] theorem pushRecord_maxTime (osc : ℚ → ℚ) (s : SimState) :
    (pushRecord osc s).maxTime = s.maxTime := rfl

@[simp] theorem pushRecord_preyPop (osc : ℚ → ℚ) (s : SimState) :
    (pushRecord osc s).preyPop = s.preyPop := rfl

@[simp] theorem pushRecord_predatorPop (osc : ℚ → ℚ) (s : SimState) :
    (pushRecord osc s).predatorPop = s.predatorPop := rfl

@[simp] theorem pushRecord_equilibriumReached (osc : ℚ → ℚ) (s : SimState) :
    (pushRecord osc s).equilibriumReached = s.equilibriumReached := rfl

@[simp] theorem pushRecord_equilibriumPoint (osc : ℚ → ℚ) (s : SimState) :
    (pushRecord osc s).equilibriumPoint = s.equilibriumPoint := rfl

@[simp] theorem pushRecord_extinctionOccurred (osc : ℚ → ℚ) (s : SimState) :
    (pushRecord osc s).extinctionOccurred = s.extinctionOccurred := rfl

@[simp] theorem pushRecord_steps (osc : ℚ → ℚ) (s : SimState) :
    (pushRecord osc s).steps = s.steps := rfl

@[simp] theorem pushRecord_params (osc : ℚ → ℚ) (s : SimState) :
    (pushRecord osc s).params = s.params := rfl

@[simp] theorem pushRecord_history (osc : ℚ → ℚ) (s : SimState) :
    (pushRecord osc s).history = s.history ++ [mkRecord osc s] := rfl

/-- The record phase leaves every field except the history unchanged. -/
@[simp] theorem recordPhase_currentTime (osc : ℚ → ℚ) (s : SimState) (lr : ℚ) :
    ((recordPhase osc s lr).1).currentTime = s.currentTime := by
  unfold recordPhase; split <;> rfl

@[simp] theorem recordPhase_maxTime (osc : ℚ → ℚ) (s : SimState) (lr : ℚ) :
    ((recordPhase osc s lr).1).maxTime = s.maxTime := by
  unfold recordPhase; split <;> rfl

@[simp] theorem recordPhase_preyPop (osc : ℚ → ℚ) (s : SimState) (lr : ℚ) :
    ((recordPhase osc s lr).1).preyPop = s.preyPop := by
  unfold recordPhase; split <;> rfl

@[simp] theorem recordPhase_predatorPop (osc : ℚ → ℚ) (s : SimState) (lr : ℚ) :
    ((recordPhase osc s lr).1).predatorPop = s.predatorPop := by
  unfold recordPhase; split <;> rfl

@[simp] theorem recordPhase_equilibriumReached (osc : ℚ → ℚ) (s : SimState) (lr : ℚ) :
    ((recordPhase osc s lr).1).equilibriumReached = s.equilibriumReached := by
  unfold recordPhase; split <;> rfl

@[simp] theorem recordPhase_equilibriumPoint (osc : ℚ → ℚ) (s : SimState) (lr : ℚ) :
    ((recordPhase osc s lr).1).equilibriumPoint = s.equilibriumPoint := by
  unfold recordPhase; split <;> rfl

@[simp] theorem recordPhase_extinctionOccurred (osc : ℚ → ℚ) (s : SimState) (lr : ℚ) :
    ((recordPhase osc s lr).1).extinctionOccurred = s.extinctionOccurred := by
  unfold recordPhase; split <;> rfl

@[simp] theorem recordPhase_steps (osc : ℚ → ℚ) (s : SimState) (lr : ℚ) :
    ((recordPhase osc s lr).1).steps = s.steps := by
  unfold recordPhase; split <;> rfl

@[simp] theorem recordPhase_params (osc : ℚ → ℚ) (s : SimState) (lr : ℚ) :
    ((recordPhase osc s lr).1).params = s.params := by
  unfold recordPhase; split <;> rfl

/-- Any record in the history after the record phase is either an old record
or the freshly emitted record of the current state. -/
theorem recordPhase_history_mem (osc : ℚ → ℚ) (s : SimState) (lr : ℚ) :
    ∀ r ∈ ((recordPhase osc s lr).1).history, r ∈ s.history ∨ r = mkRecord osc s := by
  unfold recordPhase; split
  · intro r hr
    rcases List.mem_append.mp hr with h | h
    · exact Or.inl h
    · exact Or.inr (List.mem_singleton.mp h)
  · exact fun r hr => Or.inl hr

/-- The integration step only changes the populations and the ghost step
counter. -/
@[simp] theorem doStep_currentTime (osc : ℚ → ℚ) (s : SimState) :
    (doStep osc s).currentTime = s.currentTime := rfl

@[simp] theorem doStep_maxTime (osc : ℚ → ℚ) (s : SimState) :
    (doStep osc s).maxTime = s.maxTime := rfl

@[simp] theorem doStep_history (osc : ℚ → ℚ) (s : SimState) :
    (doStep osc s).history = s.history := rfl

@[simp] theorem doStep_equilibriumReached (osc : ℚ → ℚ) (s : SimState) :
    (doStep osc s).equilibriumReached = s.equilibriumReached := rfl

@[simp] theorem doStep_equilibriumPoint (osc : ℚ → ℚ) (s : SimState) :
    (doStep osc s).equilibriumPoint = s.equilibriumPoint := rfl

@[simp] theorem doStep_extinctionOccurred (osc : ℚ → ℚ) (s : SimState) :
    (doStep osc s).extinctionOccurred = s.extinctionOccurred := rfl

@[simp] theorem doStep_steps (osc : ℚ → ℚ) (s : SimState) :
    (doStep osc s).steps = s.steps + 1 := rfl

@[simp] theorem doStep_params (osc : ℚ → ℚ) (s : SimState) :
    (doStep osc s).params = s.params := rfl

@[simp] theorem doStep_preyPop (osc : ℚ → ℚ) (s : SimState) :
    (doStep osc s).preyPop =
      (rungeKutta4Step osc s.params s.preyPop s.predatorPop s.currentTime).1 := rfl

@[simp] theorem doStep_predatorPop (osc : ℚ → ℚ) (s : SimState) :
    (doStep osc s).predatorPop =
      (rungeKutta4Step osc s.params s.preyPop s.predatorPop s.currentTime).2 := rfl

/-- The extinction check only (possibly) sets the extinction flag. -/
@[simp] theorem checkExtinction_currentTime (s : SimState) :
    ((checkExtinction s).1).currentTime = s.currentTime := by
  unfold checkExtinction; split <;> rfl

@[simp] theorem checkExtinction_maxTime (s : SimState) :
    ((checkExtinction s).1).maxTime = s.maxTime := by
  unfold checkExtinction; split <;> rfl

@[simp] theorem checkExtinction_history (s : SimState) :
    ((checkExtinction s).1).history = s.history := by
  unfold checkExtinction; split <;> rfl

@[simp] theorem checkExtinction_preyPop (s : SimState) :
    ((checkExtinction s).1).preyPop = s.preyPop := by
  unfold checkExtinction; split <;> rfl

@[simp] theorem checkExtinction_predatorPop (s : SimState) :
    ((checkExtinction s).1).predatorPop = s.predatorPop := by
  unfold checkExtinction; split <;> rfl

@[simp] theorem checkExtinction_equilibriumReached (s : SimState) :
    ((checkExtinction s).1).equilibriumReached = s.equilibriumReached := by
  unfold checkExtinction; split <;> rfl

@[simp] theorem checkExtinction_equilibriumPoint (s : SimState) :
    ((checkExtinction s).1).equilibriumPoint = s.equilibriumPoint := by
  unfold checkExtinction; split <;> rfl

@[simp] theorem checkExtinction_steps (s : SimState) :
    ((checkExtinction s).1).steps = s.steps := by
  unfold checkExtinction; split <;> rfl

@[simp] theorem checkExtinction_params (s : SimState) :
    ((checkExtinction s).1).params = s.params := by
  unfold checkExtinction; split <;> rfl

/-- When the extinction check trips it latches the flag and nothing else. -/
theorem checkExtinction_snd_true {s : SimState} (h : (checkExtinction s).2 = true) :
    (checkExtinction s).1 = {s with extinctionOccurred := true} := by
  unfold checkExtinction at h ⊢; split at h
  · split <;> simp_all
  · simp at h

/-- When the extinction check does not trip the state is unchanged. -/
theorem checkExtinction_snd_false {s : SimState} (h : (checkExtinction s).2 = false) :
    (checkExtinction s).1 = s := by
  unfold checkExtinction at h ⊢; split at h
  · simp at h
  · split <;> simp_all

/-- The equilibrium check leaves every field except the latch flag and the
stored point unchanged. -/
@[simp] theorem checkEquilibrium_currentTime (sq : ℚ → ℚ) (s : SimState) :
    ((checkEquilibrium sq s).1).currentTime = s.currentTime := by
  unfold checkEquilibrium; split
  · rfl
  · split <;> rfl

@[simp] theorem checkEquilibrium_maxTime (sq : ℚ → ℚ) (s : SimState) :
    ((checkEquilibrium sq s).1).maxTime = s.maxTime := by
  unfold checkEquilibrium; split
  · rfl
  · split <;> rfl

@[simp] theorem checkEquilibrium_history (sq : ℚ → ℚ) (s : SimState) :
    ((checkEquilibrium sq s).1).history = s.history := by
  unfold checkEquilibrium; split
  · rfl
  · split <;> rfl

@[simp] theorem checkEquilibrium_preyPop (sq : ℚ → ℚ) (s : SimState) :
    ((checkEquilibrium sq s).1).preyPop = s.preyPop := by
  unfold checkEquilibrium; split
  · rfl
  · split <;> rfl

@[simp] theorem checkEquilibrium_predatorPop (sq : ℚ → ℚ) (s : SimState) :
    ((checkEquilibrium sq s).1).predatorPop = s.predatorPop := by
  unfold checkEquilibrium; split
  · rfl
  · split <;> rfl

@[simp] theorem checkEquilibrium_extinctionOccurred (sq : ℚ → ℚ) (s : SimState) :
    ((checkEquilibrium sq s).1).extinctionOccurred = s.extinctionOccurred := by
  unfold checkEquilibrium; split
  · rfl
  · split <;> rfl

@[simp] theorem checkEquilibrium_steps (sq : ℚ → ℚ) (s : SimState) :
    ((checkEquilibrium sq s).1).steps = s.steps := by
  unfold checkEquilibrium; split
  · rfl
  · split <;> rfl

@[simp] theorem checkEquilibrium_params (sq : ℚ → ℚ) (s : SimState) :
    ((checkEquilibrium sq s).1).params = s.params := by
  unfold checkEquilibrium; split
  · rfl
  · split <;> rfl

/-- A successful equilibrium check latches the flag and stores exactly the
trailing-window means together with the current time. -/
theorem checkEquilibrium_snd_true {sq : ℚ → ℚ} {s : SimState}
    (h : (checkEquilibrium sq s).2 = true) :
    (checkEquilibrium sq s).1 =
      {s with equilibriumReached := true,
              equilibriumPoint :=
                some ⟨windowMeanPrey s, windowMeanPredator s, s.currentTime⟩} := by
  unfold checkEquilibrium at h ⊢
  split_ifs at h ⊢ <;> simp_all

/-- A failed equilibrium check leaves the state unchanged. -/
theorem checkEquilibrium_snd_false {sq : ℚ → ℚ} {s : SimState}
    (h : (checkEquilibrium sq s).2 = false) :
    (checkEquilibrium sq s).1 = s := by
  unfold checkEquilibrium at h ⊢
  split_ifs at h ⊢ <;> simp_all

/-- A successful equilibrium check requires a full trailing window. -/
theorem checkEquilibrium_snd_true_length {sq : ℚ → ℚ} {s : SimState}
    (h : (checkEquilibrium sq s).2 = true) :
    equilibriumBufferSize ≤ s.history.length := by
  unfold checkEquilibrium at h
  split_ifs at h with h1 h2 <;> simp_all <;> omega

/-- With the latch already set, the equilibrium phase does nothing. -/
theorem equilibriumPhase_of_reached {sq : ℚ → ℚ} {s : SimState}
    (h : s.equilibriumReached = true) : equilibriumPhase sq s = s := by
  unfold equilibriumPhase; simp [h]

/-- On a fresh detection the equilibrium phase latches the flag, stores the
window means and the detection time, and shrinks the horizon to
min(maxTime, currentTime + 10). -/
theorem equilibriumPhase_latch {sq : ℚ → ℚ} {s : SimState}
    (h : s.equilibriumReached = false) (hc : (checkEquilibrium sq s).2 = true) :
    equilibriumPhase sq s =
      {s with equilibriumReached := true,
              equilibriumPoint :=
                some ⟨windowMeanPrey s, windowMeanPredator s, s.currentTime⟩,
              maxTime := min s.maxTime (s.currentTime + 10)} := by
  unfold equilibriumPhase
  simp only [h, Bool.false_eq_true, if_false, hc, if_true]
  rw [checkEquilibrium_snd_true hc]
  have harith : s.currentTime + min 10 (s.maxTime - s.currentTime) =
      min s.maxTime (s.currentTime + 10) := by
    rcases le_total (s.maxTime - s.currentTime) 10 with hle | hle
    · rw [min_eq_right hle, min_eq_left (by linarith)]; ring
    · rw [min_eq_left hle, min_eq_right (by linarith)]
  simp [harith]

/-- Without a detection the equilibrium phase does nothing. -/
theorem equilibriumPhase_nolatch {sq : ℚ → ℚ} {s : SimState}
    (h : s.equilibriumReached = false) (hc : (checkEquilibrium sq s).2 = false) :
    equilibriumPhase sq s = s := by
  unfold equilibriumPhase
  simp only [h, Bool.false_eq_true, if_false, hc]
  simp [checkEquilibrium_snd_false hc]

/-- The equilibrium phase never increases the horizon. -/
theorem equilibriumPhase_maxTime_le (sq : ℚ → ℚ) (s : SimState) :
    (equilibriumPhase sq s).maxTime ≤ s.maxTime := by
  by_cases h : s.equilibriumReached = true
  · rw [equilibriumPhase_of_reached h]
  · replace h : s.equilibriumReached = false := by simpa using h
    by_cases hc : (checkEquilibrium sq s).2 = true
    · rw [equilibriumPhase_latch h hc]; exact min_le_left _ _
    · replace hc : (checkEquilibrium sq s).2 = false := by simpa using hc
      rw [equilibriumPhase_nolatch h hc]

/-- The equilibrium phase leaves everything except the latch state and the
horizon unchanged. -/
@[simp] theorem equilibriumPhase_currentTime (sq : ℚ → ℚ) (s : SimState) :
    (equilibriumPhase sq s).currentTime = s.currentTime := by
  unfold equilibriumPhase; split
  · rfl
  · split <;> simp

@[simp] theorem equilibriumPhase_history (sq : ℚ → ℚ) (s : SimState) :
    (equilibriumPhase sq s).history = s.history := by
  unfold equilibriumPhase; split
  · rfl
  · split <;> simp

@[simp] theorem equilibriumPhase_preyPop (sq : ℚ → ℚ) (s : SimState) :
    (equilibriumPhase sq s).preyPop = s.preyPop := by
  unfold equilibriumPhase; split
  · rfl
  · split <;> simp

@[simp] theorem equilibriumPhase_predatorPop (sq : ℚ → ℚ) (s : SimState) :
    (equilibriumPhase sq s).predatorPop = s.predatorPop := by
  unfold equilibriumPhase; split
  · rfl
  · split <;> simp

@[simp] theorem equilibriumPhase_extinctionOccurred (sq : ℚ → ℚ) (s : SimState) :
    (equilibriumPhase sq s).extinctionOccurred = s.extinctionOccurred := by
  unfold equilibriumPhase; split
  · rfl
  · split <;> simp

@[simp] theorem equilibriumPhase_steps (sq : ℚ → ℚ) (s : SimState) :
    (equilibriumPhase sq s).steps = s.steps := by
  unfold equilibriumPhase; split
  · rfl
  · split <;> simp

@[simp] theorem equilibriumPhase_params (sq : ℚ → ℚ) (s : SimState) :
    (equilibriumPhase sq s).params = s.params := by
  unfold equilibriumPhase; split
  · rfl
  · split <;> simp

/-- Advancing the clock changes only currentTime. -/
@[simp] theorem tickTime_currentTime (s : SimState) :
    (tickTime s).currentTime = s.currentTime + dt := rfl

@[simp] theorem tickTime_maxTime (s : SimState) : (tickTime s).maxTime = s.maxTime := rfl

@[simp] theorem tickTime_history (s : SimState) : (tickTime s).history = s.history := rfl

@[simp] theorem tickTime_preyPop (s : SimState) : (tickTime s).preyPop = s.preyPop := rfl

@[simp] theorem tickTime_predatorPop (s : SimState) :
    (tickTime s).predatorPop = s.predatorPop := rfl

@[simp] theorem tickTime_equilibriumReached (s : SimState) :
    (tickTime s).equilibriumReached = s.equilibriumReached := rfl

@[simp] theorem tickTime_equilibriumPoint (s : SimState) :
    (tickTime s).equilibriumPoint = s.equilibriumPoint := rfl

@[simp] theorem tickTime_extinctionOccurred (s : SimState) :
    (tickTime s).extinctionOccurred = s.extinctionOccurred := rfl

@[simp] theorem tickTime_steps (s : SimState) : (tickTime s).steps = s.steps := rfl

@[simp] theorem tickTime_params (s : SimState) : (tickTime s).params = s.params := rfl

/-- Case analysis for one iteration of the simulate loop: either the guard
fails and nothing happens, or the extinction check trips and the loop
returns at once, or the iteration completes and the loop recurses. -/
theorem simLoopT_succ_elim (osc sq : ℚ → ℚ) (n : ℕ) (s : SimState) (lr : ℚ) :
    (¬ s.currentTime < s.maxTime ∧ simLoopT osc sq (n+1) s lr = (s, [])) ∨
    (s.currentTime < s.maxTime ∧
      (checkExtinction (doStep osc (recordPhase osc s lr).1)).2 = true ∧
      simLoopT osc sq (n+1) s lr =
        ((checkExtinction (doStep osc (recordPhase osc s lr).1)).1, [s.currentTime])) ∨
    (s.currentTime < s.maxTime ∧
      (checkExtinction (doStep osc (recordPhase osc s lr).1)).2 = false ∧
      ∃ s₆, s₆ = tickTime (equilibriumPhase sq
          (checkExtinction (doStep osc (recordPhase osc s lr).1)).1) ∧
        simLoopT osc sq (n+1) s lr =
          ((simLoopT osc sq n s₆ (recordPhase osc s lr).2).1,
           s.currentTime :: (simLoopT osc sq n s₆ (recordPhase osc s lr).2).2)) := by
  by_cases hrun : s.currentTime < s.maxTime
  · by_cases hext : (checkExtinction (doStep osc (recordPhase osc s lr).1)).2 = true
    · refine Or.inr (Or.inl ⟨hrun, hext, ?_⟩)
      rw [simLoopT]; simp only [hrun, if_true, hext, if_true]
    · replace hext : (checkExtinction (doStep osc (recordPhase osc s lr).1)).2 = false := by
        simpa using hext
      refine Or.inr (Or.inr ⟨hrun, hext, _, rfl, ?_⟩)
      rw [simLoopT]; simp only [hrun, if_true, hext, Bool.false_eq_true, if_false]
  · refine Or.inl ⟨hrun, ?_⟩
    rw [simLoopT]; simp only [hrun, if_false]

/-- The integration time step is positive. -/
theorem dt_pos : 0 < dt := by norm_num [dt]

/-- Once the equilibrium latch is set, the rest of the loop never touches
the flag, the stored point or the horizon, and every further integration
step starts strictly before the (frozen) horizon. -/
theorem simLoopT_latched (osc sq : ℚ → ℚ) (fuel : ℕ) (s : SimState) (lr : ℚ)
    (h : s.equilibriumReached = true) :
    ((simLoopT osc sq fuel s lr).1).equilibriumReached = true ∧
    ((simLoopT osc sq fuel s lr).1).equilibriumPoint = s.equilibriumPoint ∧
    ((simLoopT osc sq fuel s lr).1).maxTime = s.maxTime ∧
    ∀ t ∈ (simLoopT osc sq fuel s lr).2, t < s.maxTime := by
  induction fuel generalizing s lr with
  | zero => simp [simLoopT, h]
  | succ n ih =>
    rcases simLoopT_succ_elim osc sq n s lr with
      ⟨hrun, heq⟩ | ⟨hrun, hext, heq⟩ | ⟨hrun, hext, s₆, hs₆, heq⟩
    · rw [heq]; exact ⟨h, rfl, rfl, by simp⟩
    · rw [heq, checkExtinction_snd_true hext]
      refine ⟨by simp [h], by simp, by simp, ?_⟩
      intro t ht
      rw [List.mem_singleton.mp ht]; exact hrun
    · have h₆ : s₆.equilibriumReached = true := by
        rw [hs₆]; simp [equilibriumPhase_of_reached, h]
      have hpt : s₆.equilibriumPoint = s.equilibriumPoint := by
        rw [hs₆]; simp [equilibriumPhase_of_reached, h]
      have hmx : s₆.maxTime = s.maxTime := by
        rw [hs₆]; simp [equilibriumPhase_of_reached, h]
      obtain ⟨ih1, ih2, ih3, ih4⟩ := ih s₆ (recordPhase osc s lr).2 h₆
      rw [heq]
      refine ⟨ih1, by rw [ih2, hpt], by rw [ih3, hmx], ?_⟩
      intro t ht
      rcases List.mem_cons.mp ht with rfl | ht'
      · exact hrun
      · have := ih4 t ht'; rw [hmx] at this; exact this

/-- The loop never increases the horizon, and every integration step starts
strictly before the initial horizon. -/
theorem simLoopT_maxTime_le (osc sq : ℚ → ℚ) (fuel : ℕ) (s : SimState) (lr : ℚ) :
    ((simLoopT osc sq fuel s lr).1).maxTime ≤ s.maxTime ∧
    ∀ t ∈ (simLoopT osc sq fuel s lr).2, t < s.maxTime := by
  induction fuel generalizing s lr with
  | zero => simp [simLoopT]
  | succ n ih =>
    rcases simLoopT_succ_elim osc sq n s lr with
      ⟨hrun, heq⟩ | ⟨hrun, hext, heq⟩ | ⟨hrun, hext, s₆, hs₆, heq⟩
    · rw [heq]; exact ⟨le_refl _, by simp⟩
    · rw [heq, checkExtinction_snd_true hext]
      refine ⟨by simp, ?_⟩
      intro t ht
      rw [List.mem_singleton.mp ht]; exact hrun
    · have hmx : s₆.maxTime ≤ s.maxTime := by
        rw [hs₆, tickTime_maxTime]
        have hle := equilibriumPhase_maxTime_le sq
          (checkExtinction (doStep osc (recordPhase osc s lr).1)).1
        simpa using hle
      obtain ⟨ih1, ih2⟩ := ih s₆ (recordPhase osc s lr).2
      rw [heq]
      refine ⟨le_trans ih1 hmx, ?_⟩
      intro t ht
      rcases List.mem_cons.mp ht with rfl | ht'
      · exact hrun
      · exact lt_of_lt_of_le (ih2 t ht') hmx

/-- Before the equilibrium latch is set: the stored point is unchanged as
long as the latch stays unset, and if the run latches at some point p′ then
the detection happens no earlier than now, the horizon becomes exactly
min(old horizon, detection time + 10), and every integration step of the
remaining run starts strictly before detection time + 10. -/
theorem simLoopT_prelatch (osc sq : ℚ → ℚ) (fuel : ℕ) (s : SimState) (lr : ℚ)
    (h : s.equilibriumReached = false) :
    (((simLoopT osc sq fuel s lr).1).equilibriumReached = false →
       ((simLoopT osc sq fuel s lr).1).equilibriumPoint = s.equilibriumPoint) ∧
    (∀ p', ((simLoopT osc sq fuel s lr).1).equilibriumReached = true →
       ((simLoopT osc sq fuel s lr).1).equilibriumPoint = some p' →
       s.currentTime ≤ p'.timeToReach ∧
       ((simLoopT osc sq fuel s lr).1).maxTime = min s.maxTime (p'.timeToReach + 10) ∧
       ∀ t ∈ (simLoopT osc sq fuel s lr).2, t < p'.timeToReach + 10) := by
  induction fuel generalizing s lr with
  | zero =>
    refine ⟨fun _ => rfl, fun p' h1 _ => ?_⟩
    rw [simLoopT] at h1
    rw [h] at h1; simp at h1
  | succ n ih =>
    rcases simLoopT_succ_elim osc sq n s lr with
      ⟨hrun, heq⟩ | ⟨hrun, hext, heq⟩ | ⟨hrun, hext, s₆, hs₆, heq⟩
    · rw [heq]
      refine ⟨fun _ => rfl, fun p' h1 _ => ?_⟩
      rw [h] at h1; simp at h1
    · rw [heq, checkExtinction_snd_true hext]
      refine ⟨fun _ => by simp, fun p' h1 _ => ?_⟩
      simp [h] at h1
    · by_cases hc : (checkEquilibrium sq
          (checkExtinction (doStep osc (recordPhase osc s lr).1)).1).2 = true
      · -- the latch happens in this iteration
        have hY : (checkExtinction (doStep osc
            (recordPhase osc s lr).1)).1.equilibriumReached = false := by simp [h]
        have hphase := equilibriumPhase_latch hY hc
        have h₆ : s₆.equilibriumReached = true := by rw [hs₆, hphase]; rfl
        have hpt : s₆.equilibriumPoint = some
            ⟨windowMeanPrey (checkExtinction (doStep osc (recordPhase osc s lr).1)).1,
             windowMeanPredator (checkExtinction (doStep osc (recordPhase osc s lr).1)).1,
             s.currentTime⟩ := by
          rw [hs₆, hphase]; simp
        have hmx : s₆.maxTime = min s.maxTime (s.currentTime + 10) := by
          rw [hs₆, hphase]; simp
        obtain ⟨l1, l2, l3, l4⟩ := simLoopT_latched osc sq n s₆ (recordPhase osc s lr).2 h₆
        rw [heq]
        constructor
        · intro h1; rw [l1] at h1; simp at h1
        · intro p' _ h2
          rw [l2, hpt] at h2
          have hp' : p'.timeToReach = s.currentTime := by
            rw [← Option.some_inj.mp h2]
          refine ⟨by rw [hp'], ?_, ?_⟩
          · rw [l3, hmx, hp']
          · intro t ht
            rcases List.mem_cons.mp ht with rfl | ht'
            · rw [hp']; linarith
            · have := l4 t ht'
              rw [hmx] at this
              rw [hp']
              exact lt_of_lt_of_le this (min_le_right _ _)
      · -- no latch in this iteration
        replace hc : (checkEquilibrium sq
            (checkExtinction (doStep osc (recordPhase osc s lr).1)).1).2 = false := by
          simpa using hc
        have hY : (checkExtinction (doStep osc
            (recordPhase osc s lr).1)).1.equilibriumReached = false := by simp [h]
        have hphase := equilibriumPhase_nolatch hY hc
        have h₆ : s₆.equilibriumReached = false := by rw [hs₆, hphase]; simp [h]
        have hptS : s₆.equilibriumPoint = s.equilibriumPoint := by rw [hs₆, hphase]; simp
        have hmxS : s₆.maxTime = s.maxTime := by rw [hs₆, hphase]; simp
        have htS : s₆.currentTime = s.currentTime + dt := by rw [hs₆, hphase]; simp
        obtain ⟨A, B⟩ := ih s₆ (recordPhase osc s lr).2 h₆
        rw [heq]
        constructor
        · intro h1; rw [A h1, hptS]
        · intro p' h1 h2
          obtain ⟨b1, b2, b3⟩ := B p' h1 h2
          rw [htS] at b1
          have hdt := dt_pos
          refine ⟨by linarith, by rw [b2, hmxS], ?_⟩
          intro t ht
          rcases List.mem_cons.mp ht with rfl | ht'
          · linarith
          · exact b3 t ht'

/-- Both outputs of an RK4 step are floor-clamped at 0. -/
theorem rungeKutta4Step_nonneg (osc : ℚ → ℚ) (p : Params) (prey predator time : ℚ) :
    0 ≤ (rungeKutta4Step osc p prey predator time).1 ∧
    0 ≤ (rungeKutta4Step osc p prey predator time).2 := by
  unfold rungeKutta4Step
  exact ⟨le_max_left 0 _, le_max_left 0 _⟩

/-- JS rounding preserves nonnegativity. -/
theorem jsRound_nonneg {q : ℚ} (h : 0 ≤ q) : 0 ≤ jsRound q := by
  unfold jsRound
  have hfloor : (0:ℤ) ≤ ⌊q + 1/2⌋ := Int.floor_nonneg.mpr (by linarith)
  exact_mod_cast hfloor

/-- A record emitted from a state with nonnegative populations has
nonnegative (rounded) populations. -/
theorem mkRecord_nonneg (osc : ℚ → ℚ) {s : SimState}
    (hp : 0 ≤ s.preyPop) (hq : 0 ≤ s.predatorPop) :
    0 ≤ (mkRecord osc s).preyPopulation ∧ 0 ≤ (mkRecord osc s).predatorPopulation := by
  constructor
  · have h1 : 0 ≤ jsRound (s.preyPop * 10) := jsRound_nonneg (by linarith)
    have : (mkRecord osc s).preyPopulation = jsRound (s.preyPop * 10) / 10 := rfl
    rw [this]; positivity
  · have h1 : 0 ≤ jsRound (s.predatorPop * 10) := jsRound_nonneg (by linarith)
    have : (mkRecord osc s).predatorPopulation = jsRound (s.predatorPop * 10) / 10 := rfl
    rw [this]; positivity

/-- Loop invariant: nonnegative populations and nonnegative recorded
populations are preserved by the whole loop. -/
theorem simLoopT_nonneg (osc sq : ℚ → ℚ) (fuel : ℕ) (s : SimState) (lr : ℚ)
    (hp : 0 ≤ s.preyPop) (hq : 0 ≤ s.predatorPop)
    (hh : ∀ r ∈ s.history, 0 ≤ r.preyPopulation ∧ 0 ≤ r.predatorPopulation) :
    0 ≤ ((simLoopT osc sq fuel s lr).1).preyPop ∧
    0 ≤ ((simLoopT osc sq fuel s lr).1).predatorPop ∧
    ∀ r ∈ ((simLoopT osc sq fuel s lr).1).history,
      0 ≤ r.preyPopulation ∧ 0 ≤ r.predatorPopulation := by
  induction fuel generalizing s lr with
  | zero => rw [simLoopT]; exact ⟨hp, hq, hh⟩
  | succ n ih =>
    have hrp : ∀ r ∈ ((recordPhase osc s lr).1).history,
        0 ≤ r.preyPopulation ∧ 0 ≤ r.predatorPopulation := by
      intro r hr
      rcases recordPhase_history_mem osc s lr r hr with hmem | rfl
      · exact hh r hmem
      · exact mkRecord_nonneg osc hp hq
    rcases simLoopT_succ_elim osc sq n s lr with
      ⟨hrun, heq⟩ | ⟨hrun, hext, heq⟩ | ⟨hrun, hext, s₆, hs₆, heq⟩
    · rw [heq]; exact ⟨hp, hq, hh⟩
    · rw [heq, checkExtinction_snd_true hext]
      refine ⟨?_, ?_, ?_⟩
      · simpa using (rungeKutta4Step_nonneg osc ((recordPhase osc s lr).1).params
          ((recordPhase osc s lr).1).preyPop ((recordPhase osc s lr).1).predatorPop
          ((recordPhase osc s lr).1).currentTime).1
      · simpa using (rungeKutta4Step_nonneg osc ((recordPhase osc s lr).1).params
          ((recordPhase osc s lr).1).preyPop ((recordPhase osc s lr).1).predatorPop
          ((recordPhase osc s lr).1).currentTime).2
      · intro r hr
        apply hrp
        simpa using hr
    · have h₆p : 0 ≤ s₆.preyPop := by
        rw [hs₆]
        simpa using (rungeKutta4Step_nonneg osc ((recordPhase osc s lr).1).params
          ((recordPhase osc s lr).1).preyPop ((recordPhase osc s lr).1).predatorPop
          ((recordPhase osc s lr).1).currentTime).1
      have h₆q : 0 ≤ s₆.predatorPop := by
        rw [hs₆]
        simpa using (rungeKutta4Step_nonneg osc ((recordPhase osc s lr).1).params
          ((recordPhase osc s lr).1).preyPop ((recordPhase osc s lr).1).predatorPop
          ((recordPhase osc s lr).1).currentTime).2
      have h₆h : ∀ r ∈ s₆.history, 0 ≤ r.preyPopulation ∧ 0 ≤ r.predatorPopulation := by
        intro r hr
        apply hrp
        rw [hs₆] at hr
        simpa using hr
      obtain ⟨i1, i2, i3⟩ := ih s₆ (recordPhase osc s lr).2 h₆p h₆q h₆h
      rw [heq]
      exact ⟨i1, i2, i3⟩

/-- Loop invariant for the ghost step counter: once at least one step has
been applied, the state's counter stays at least 1 and every record in the
history carries an afterSteps count of at least 1. -/
theorem simLoopT_afterSteps (osc sq : ℚ → ℚ) (fuel : ℕ) (s : SimState) (lr : ℚ)
    (hs : 1 ≤ s.steps) (hh : ∀ r ∈ s.history, 1 ≤ r.afterSteps) :
    1 ≤ ((simLoopT osc sq fuel s lr).1).steps ∧
    ∀ r ∈ ((simLoopT osc sq fuel s lr).1).history, 1 ≤ r.afterSteps := by
  induction fuel generalizing s lr with
  | zero => rw [simLoopT]; exact ⟨hs, hh⟩
  | succ n ih =>
    have hrp : ∀ r ∈ ((recordPhase osc s lr).1).history, 1 ≤ r.afterSteps := by
      intro r hr
      rcases recordPhase_history_mem osc s lr r hr with hmem | rfl
      · exact hh r hmem
      · simpa [mkRecord] using hs
    rcases simLoopT_succ_elim osc sq n s lr with
      ⟨hrun, heq⟩ | ⟨hrun, hext, heq⟩ | ⟨hrun, hext, s₆, hs₆, heq⟩
    · rw [heq]; exact ⟨hs, hh⟩
    · rw [heq, checkExtinction_snd_true hext]
      refine ⟨by simp, ?_⟩
      intro r hr
      apply hrp
      simpa using hr
    · have h₆s : 1 ≤ s₆.steps := by rw [hs₆]; simp
      have h₆h : ∀ r ∈ s₆.history, 1 ≤ r.afterSteps := by
        intro r hr
        apply hrp
        rw [hs₆] at hr
        simpa using hr
      obtain ⟨i1, i2⟩ := ih s₆ (recordPhase osc s lr).2 h₆s h₆h
      rw [heq]
      exact ⟨i1, i2⟩

/-- C3: in run-to-completion mode, an integration step that trips the
extinction check makes the loop return at once — the result is independent
of the remaining fuel, the loop history gains nothing after the latch, the
extinction flag is set — and the driver then appends exactly one
force-emitted final record. -/
theorem C3_extinction_finality (osc sq : ℚ → ℚ) (fuel : ℕ) (s : SimState) (lr : ℚ)
    (hrun : s.currentTime < s.maxTime)
    (hext : (checkExtinction (doStep osc (recordPhase osc s lr).1)).2 = true) :
    simLoopT osc sq (fuel+1) s lr =
      ({doStep osc (recordPhase osc s lr).1 with extinctionOccurred := true},
       [s.currentTime]) ∧
    ((simLoopT osc sq (fuel+1) s lr).1).history = ((recordPhase osc s lr).1).history ∧
    ((simLoopT osc sq (fuel+1) s lr).1).extinctionOccurred = true ∧
    (pushRecord osc (simLoopT osc sq (fuel+1) s lr).1).history =
      ((simLoopT osc sq (fuel+1) s lr).1).history ++
        [mkRecord osc (simLoopT osc sq (fuel+1) s lr).1] := by
  have heq : simLoopT osc sq (fuel+1) s lr =
      ((checkExtinction (doStep osc (recordPhase osc s lr).1)).1, [s.currentTime]) := by
    rw [simLoopT]; simp only [hrun, if_true, hext, if_true]
  rw [heq, checkExtinction_snd_true hext]
  exact ⟨rfl, by simp, by simp, rfl⟩

/-- C4: the equilibrium latch transitions false→true at most once: once the
flag is set the loop never changes the flag or the stored point again; as
long as the flag is unset the stored point is untouched; the successful
check stores exactly the trailing-window means and the current time; and
the final forced record changes neither. -/
theorem C4_equilibrium_latch :
    (∀ (osc sq : ℚ → ℚ) (fuel : ℕ) (s : SimState) (lr : ℚ),
       s.equilibriumReached = true →
       ((simLoopT osc sq fuel s lr).1).equilibriumReached = true ∧
       ((simLoopT osc sq fuel s lr).1).equilibriumPoint = s.equilibriumPoint) ∧
    (∀ (osc sq : ℚ → ℚ) (fuel : ℕ) (s : SimState) (lr : ℚ),
       s.equilibriumReached = false →
       ((simLoopT osc sq fuel s lr).1).equilibriumReached = false →
       ((simLoopT osc sq fuel s lr).1).equilibriumPoint = s.equilibriumPoint) ∧
    (∀ (sq : ℚ → ℚ) (s : SimState),
       (checkEquilibrium sq s).2 = true →
       ((checkEquilibrium sq s).1).equilibriumReached = true ∧
       ((checkEquilibrium sq s).1).equilibriumPoint =
         some ⟨windowMeanPrey s, windowMeanPredator s, s.currentTime⟩) ∧
    (∀ (osc : ℚ → ℚ) (s : SimState),
       (pushRecord osc s).equilibriumReached = s.equilibriumReached ∧
       (pushRecord osc s).equilibriumPoint = s.equilibriumPoint) := by
  refine ⟨?_, ?_, ?_, ?_⟩
  · intro osc sq fuel s lr h
    obtain ⟨a, b, _, _⟩ := simLoopT_latched osc sq fuel s lr h
    exact ⟨a, b⟩
  · intro osc sq fuel s lr h h2
    exact (simLoopT_prelatch osc sq fuel s lr h).1 h2
  · intro sq s h
    rw [checkEquilibrium_snd_true h]
    exact ⟨rfl, rfl⟩
  · intro osc s
    exact ⟨rfl, rfl⟩

/-- C5: on a fresh equilibrium detection at time T the horizon becomes
exactly min(old horizon, T + 10); once latched the horizon is frozen and
all further steps start before it; and in any run segment started before
the latch, the horizon never grows, every step starts before the initial
horizon, and if the segment ends latched at point p′ the final horizon is
exactly min(initial horizon, p′.timeToReach + 10) with every step starting
strictly before that bound. -/
theorem C5_horizon_shrink :
    (∀ (sq : ℚ → ℚ) (s : SimState),
       s.equilibriumReached = false → (checkEquilibrium sq s).2 = true →
       (equilibriumPhase sq s).maxTime = min s.maxTime (s.currentTime + 10) ∧
       (equilibriumPhase sq s).equilibriumPoint =
         some ⟨windowMeanPrey s, windowMeanPredator s, s.currentTime⟩) ∧
    (∀ (osc sq : ℚ → ℚ) (fuel : ℕ) (s : SimState) (lr : ℚ),
       s.equilibriumReached = true →
       ((simLoopT osc sq fuel s lr).1).maxTime = s.maxTime ∧
       ∀ t ∈ (simLoopT osc sq fuel s lr).2, t < s.maxTime) ∧
    (∀ (osc sq : ℚ → ℚ) (fuel : ℕ) (s : SimState) (lr : ℚ),
       s.equilibriumReached = false →
       ((simLoopT osc sq fuel s lr).1).maxTime ≤ s.maxTime ∧
       (∀ t ∈ (simLoopT osc sq fuel s lr).2, t < s.maxTime) ∧
       (∀ p', ((simLoopT osc sq fuel s lr).1).equilibriumReached = true →
          ((simLoopT osc sq fuel s lr).1).equilibriumPoint = some p' →
          ((simLoopT osc sq fuel s lr).1).maxTime = min s.maxTime (p'.timeToReach + 10) ∧
          ∀ t ∈ (simLoopT osc sq fuel s lr).2,
            t < min s.maxTime (p'.timeToReach + 10))) := by
  refine ⟨?_, ?_, ?_⟩
  · intro sq s h hc
    rw [equilibriumPhase_latch h hc]
    exact ⟨rfl, rfl⟩
  · intro osc sq fuel s lr h
    obtain ⟨_, _, c, d⟩ := simLoopT_latched osc sq fuel s lr h
    exact ⟨c, d⟩
  · intro osc sq fuel s lr h
    obtain ⟨m1, m2⟩ := simLoopT_maxTime_le osc sq fuel s lr
    refine ⟨m1, m2, ?_⟩
    intro p' h1 h2
    obtain ⟨_, b2, b3⟩ := (simLoopT_prelatch osc sq fuel s lr h).2 p' h1 h2
    refine ⟨b2, ?_⟩
    intro t ht
    exact lt_min (m2 t ht) (b3 t ht)

/-- C6: every RK4 step output is floor-clamped at 0 in both components, and
consequently every record of a run started from nonnegative initial
populations has nonnegative (rounded) populations. -/
theorem C6_nonnegativity :
    (∀ (osc : ℚ → ℚ) (p : Params) (prey predator time : ℚ),
       0 ≤ (rungeKutta4Step osc p prey predator time).1 ∧
       0 ≤ (rungeKutta4Step osc p prey predator time).2) ∧
    (∀ (osc sq : ℚ → ℚ) (fuel : ℕ) (p : Params),
       0 ≤ p.prey.initialPopulation → 0 ≤ p.predator.initialPopulation →
       ∀ r ∈ (simulate osc sq fuel p).history,
         0 ≤ r.preyPopulation ∧ 0 ≤ r.predatorPopulation) := by
  refine ⟨rungeKutta4Step_nonneg, ?_⟩
  intro osc sq fuel p hp hq r hr
  obtain ⟨b1, b2, b3⟩ := simLoopT_nonneg osc sq fuel (init p) 0
    (by simpa [init] using hp) (by simpa [init] using hq) (by simp [init])
  unfold simulate at hr
  rw [pushRecord_history] at hr
  rcases List.mem_append.mp hr with hmem | hmem
  · exact b3 r hmem
  · rw [List.mem_singleton.mp hmem]
    exact mkRecord_nonneg osc b1 b2

/-- C10: the record sequence of a run is never empty (one final record is
force-emitted unconditionally), the elapsed-since-last-record test fails at
construction time 0 so the record phase emits nothing then, and in a run
with at least one loop iteration every emitted record postdates at least
one integration step (ghost afterSteps count ≥ 1): the construction-time
state is never emitted. -/
theorem C10_no_initial_record (osc sq : ℚ → ℚ) (p : Params) (fuel : ℕ) :
    0 < (simulate osc sq fuel p).history.length ∧
    recordPhase osc (init p) 0 = (init p, 0) ∧
    ((simulate osc sq (fuel+1) p).history.all
      (fun r => decide (1 ≤ r.afterSteps))) = true := by
  have hrp : recordPhase osc (init p) 0 = (init p, 0) := by
    unfold recordPhase
    rw [if_neg]
    norm_num [init, recordInterval]
  refine ⟨?_, hrp, ?_⟩
  · unfold simulate
    rw [pushRecord_history]
    simp
  · rw [List.all_eq_true]
    intro r hr
    rw [decide_eq_true_eq]
    have hrun : (init p).currentTime < (init p).maxTime := by
      norm_num [init, maxTimeInit]
    rcases simLoopT_succ_elim osc sq fuel (init p) 0 with
      ⟨hr0, _⟩ | ⟨_, hext, heq⟩ | ⟨_, hext, s₆, hs₆, heq⟩
    · exact absurd hrun hr0
    · unfold simulate at hr
      rw [heq, checkExtinction_snd_true hext, pushRecord_history, hrp] at hr
      have : r = mkRecord osc
          {doStep osc (init p) with extinctionOccurred := true} := by
        simpa [init] using hr
      rw [this]
      simp [mkRecord, init]
    · have h₆s : 1 ≤ s₆.steps := by
        rw [hs₆]; simp [hrp, init]
      have h₆h : ∀ r' ∈ s₆.history, 1 ≤ r'.afterSteps := by
        rw [hs₆]
        simp only [tickTime_history, equilibriumPhase_history, checkExtinction_history,
          doStep_history, hrp]
        simp [init]
      obtain ⟨a1, a2⟩ := simLoopT_afterSteps osc sq fuel s₆
        (recordPhase osc (init p) 0).2 h₆s h₆h
      unfold simulate at hr
      rw [heq, pushRecord_history] at hr
      rcases List.mem_append.mp hr with hmem | hmem
      · exact a2 r hmem
      · rw [List.mem_singleton.mp hmem]
        simpa [mkRecord] using a1

/-! ### Concrete states for the witnesses -/

/-- A state whose equilibrium latch is already set. -/
def latchedState : SimState where
  params := scenarioA
  history := []
  currentTime := 0
  maxTime := 100
  preyPop := 1000
  predatorPop := 100
  equilibriumReached := true
  equilibriumPoint := some ⟨1, 2, 3⟩
  extinctionOccurred := false
  steps := 5

/-- A constant record used to build a full equilibrium window. -/
def windowRecord : TimeStepRecord where
  time := 0
  preyPopulation := 1
  predatorPopulation := 1
  resourceLevel := 0
  afterSteps := 1

/-- An unlatched state whose history already holds a full 50-record
window. -/
def fullWindowState : SimState where
  params := scenarioA
  history := List.replicate 50 windowRecord
  currentTime := 7
  maxTime := 100
  preyPop := 1
  predatorPop := 1
  equilibriumReached := false
  equilibriumPoint := none
  extinctionOccurred := false
  steps := 10

/-- A degenerate parameter set whose populations start at 0, so the very
first integration step trips the extinction check. -/
def extinctParams : Params where
  prey := { initialPopulation := 0, birthRate := 0, carryingCapacity := 1 }
  predator := { initialPopulation := 0, huntingEfficiency := 0, deathRate := 0 }
  environment := { resourceAvailability := 0, seasonalVariation := false, seasonalAmplitude := 0 }

/-- With the all-zero square-root oracle the equilibrium check succeeds on
any state with a full window. -/
theorem fullWindowState_check :
    (checkEquilibrium (fun _ => 0) fullWindowState).2 = true := by
  norm_num [checkEquilibrium, fullWindowState, equilibriumBufferSize, equilibriumTolerance]

/-- C3 witness: the extinction-finality theorem applied to a run from the
all-zero parameter set, whose first step trips the extinction check. -/
theorem C3_extinction_finality_witness :
    simLoopT (fun _ => 0) (fun _ => 0) 1 (init extinctParams) 0 =
      ({doStep (fun _ => 0) (recordPhase (fun _ => 0) (init extinctParams) 0).1 with
          extinctionOccurred := true}, [(init extinctParams).currentTime]) ∧
    ((simLoopT (fun _ => 0) (fun _ => 0) 1 (init extinctParams) 0).1).history =
      ((recordPhase (fun _ => 0) (init extinctParams) 0).1).history ∧
    ((simLoopT (fun _ => 0) (fun _ => 0) 1 (init extinctParams) 0).1).extinctionOccurred =
      true ∧
    (pushRecord (fun _ => 0)
        (simLoopT (fun _ => 0) (fun _ => 0) 1 (init extinctParams) 0).1).history =
      ((simLoopT (fun _ => 0) (fun _ => 0) 1 (init extinctParams) 0).1).history ++
        [mkRecord (fun _ => 0)
          (simLoopT (fun _ => 0) (fun _ => 0) 1 (init extinctParams) 0).1] := by
  have hrp : recordPhase (fun _ => 0) (init extinctParams) 0 = (init extinctParams, 0) := by
    unfold recordPhase
    rw [if_neg]
    norm_num [init, recordInterval]
  refine C3_extinction_finality (fun _ => 0) (fun _ => 0) 0 (init extinctParams) 0
    (by norm_num [init, maxTimeInit]) ?_
  rw [hrp]
  norm_num [checkExtinction, doStep, rungeKutta4Step, calculateDerivatives,
    calculateResourceLevel, init, extinctParams, dt]

/-- C4 witness: the latch theorem's four parts applied to concrete states:
an already-latched state, a fresh run of length 0, a full-window state on
which the check succeeds, and the final forced record. -/
theorem C4_equilibrium_latch_witness :
    ((simLoopT (fun _ => 0) (fun _ => 0) 3 latchedState 0).1.equilibriumReached = true ∧
     (simLoopT (fun _ => 0) (fun _ => 0) 3 latchedState 0).1.equilibriumPoint =
       latchedState.equilibriumPoint) ∧
    ((simLoopT (fun _ => 0) (fun _ => 0) 0 (init scenarioA) 0).1.equilibriumPoint =
       (init scenarioA).equilibriumPoint) ∧
    (((checkEquilibrium (fun _ => 0) fullWindowState).1).equilibriumReached = true ∧
     ((checkEquilibrium (fun _ => 0) fullWindowState).1).equilibriumPoint =
       some ⟨windowMeanPrey fullWindowState, windowMeanPredator fullWindowState,
             fullWindowState.currentTime⟩) ∧
    ((pushRecord (fun _ => 0) latchedState).equilibriumReached =
       latchedState.equilibriumReached ∧
     (pushRecord (fun _ => 0) latchedState).equilibriumPoint =
       latchedState.equilibriumPoint) := by
  have h2 : (simLoopT (fun (_:ℚ) => (0:ℚ)) (fun _ => 0) 0
      (init scenarioA) 0).1.equilibriumReached = false := by
    rw [simLoopT]
    rfl
  exact ⟨C4_equilibrium_latch.1 _ _ 3 latchedState 0 rfl,
         C4_equilibrium_latch.2.1 _ _ 0 (init scenarioA) 0 rfl h2,
         C4_equilibrium_latch.2.2.1 _ fullWindowState fullWindowState_check,
         C4_equilibrium_latch.2.2.2 _ latchedState⟩

/-- C5 witness: the horizon-shrink theorem's three parts applied to the
full-window state (fresh detection), an already-latched state and a fresh
run of length 0. -/
theorem C5_horizon_shrink_witness :
    ((equilibriumPhase (fun _ => 0) fullWindowState).maxTime =
       min fullWindowState.maxTime (fullWindowState.currentTime + 10) ∧
     (equilibriumPhase (fun _ => 0) fullWindowState).equilibriumPoint =
       some ⟨windowMeanPrey fullWindowState, windowMeanPredator fullWindowState,
             fullWindowState.currentTime⟩) ∧
    ((simLoopT (fun _ => 0) (fun _ => 0) 2 latchedState 0).1.maxTime =
       latchedState.maxTime ∧
     ∀ t ∈ (simLoopT (fun _ => 0) (fun _ => 0) 2 latchedState 0).2,
       t < latchedState.maxTime) ∧
    ((simLoopT (fun _ => 0) (fun _ => 0) 0 (init scenarioA) 0).1.maxTime ≤
       (init scenarioA).maxTime ∧
     (∀ t ∈ (simLoopT (fun _ => 0) (fun _ => 0) 0 (init scenarioA) 0).2,
        t < (init scenarioA).maxTime) ∧
     (∀ p', (simLoopT (fun _ => 0) (fun _ => 0) 0
          (init scenarioA) 0).1.equilibriumReached = true →
        (simLoopT (fun _ => 0) (fun _ => 0) 0
          (init scenarioA) 0).1.equilibriumPoint = some p' →
        (simLoopT (fun _ => 0) (fun _ => 0) 0 (init scenarioA) 0).1.maxTime =
          min (init scenarioA).maxTime (p'.timeToReach + 10) ∧
        ∀ t ∈ (simLoopT (fun _ => 0) (fun _ => 0) 0 (init scenarioA) 0).2,
          t < min (init scenarioA).maxTime (p'.timeToReach + 10))) :=
  ⟨C5_horizon_shrink.1 _ fullWindowState rfl fullWindowState_check,
   C5_horizon_shrink.2.1 _ _ 2 latchedState 0 rfl,
   C5_horizon_shrink.2.2 _ _ 0 (init scenarioA) 0 rfl⟩

/-- C6 witness: clamping at a concrete RK4 step and record nonnegativity
for a concrete run from Scenario A. -/
theorem C6_nonnegativity_witness :
    (0 ≤ (rungeKutta4Step (fun _ => 0) scenarioA 3 4 0).1 ∧
     0 ≤ (rungeKutta4Step (fun _ => 0) scenarioA 3 4 0).2) ∧
    (∀ r ∈ (simulate (fun _ => 0) (fun _ => 0) 0 scenarioA).history,
       0 ≤ r.preyPopulation ∧ 0 ≤ r.predatorPopulation) :=
  ⟨C6_nonnegativity.1 (fun _ => 0) scenarioA 3 4 0,
   C6_nonnegativity.2 (fun _ => 0) (fun _ => 0) 0 scenarioA
     (by norm_num [scenarioA]) (by norm_num [scenarioA])⟩
